import Mathlib

/-!
Verification development for the ETP personal-finance tracker.

The embedding translates `src/ETP/database.py` and `src/ETP/chatbot.py`:

* Monetary amounts (Python floats / SQLite REAL) are modelled as exact
  rationals `ℚ`; the `:.2f` / `:.1f` float formats are modelled by `fmt2`
  and `fmt1`, which round the rational to the requested number of decimal
  digits (half away from zero on the nonnegative values that occur here).
* The SQLite store is modelled as a `DB`: the list of stored rows plus the
  AUTOINCREMENT counter for the next `id`.  `ORDER BY date DESC` compares
  the TEXT dates byte-wise, modelled by the lexicographic code-point
  comparison `charListLe` (identical on ISO-8601 ASCII dates), with
  ties resolved by insertion order.
* The wall clock (`datetime.now()` and the strings derived from it) is an
  explicit `Clock` parameter holding the four derived strings the code
  uses: the `%Y-%m` current-month key, the `%B %Y` month label, and the
  `%Y-%m-%d` strings for thirty and sixty days ago.
* Python `str.lower`, substring tests (`in`), `startswith`, and string
  `<=` / `<` comparisons are modelled by `lowerStr`, `strContains`,
  `strStarts`, `strLe` and `strLt` on the underlying character lists.
-/

/-! ## String primitives -/

/-- Model of Python `str.lower()`: lower-case every character. -/
def lowerStr (s : String) : String := String.mk (s.data.map Char.toLower)

/-- Test whether the first list is a prefix of the second (code points). -/
def hasPre : List Char → List Char → Bool
  | [], _ => true
  | _ :: _, [] => false
  | p :: ps, c :: cs => p == c && hasPre ps cs

/-- Test whether `pat` occurs as a contiguous sublist. -/
def hasSub (pat : List Char) : List Char → Bool
  | [] => hasPre pat []
  | c :: cs => hasPre pat (c :: cs) || hasSub pat cs

/-- Model of Python `pat in s` on strings. -/
def strContains (s pat : String) : Bool := hasSub pat.data s.data

/-- Model of Python `s.startswith(pat)`. -/
def strStarts (s pat : String) : Bool := hasPre pat.data s.data

/-- Lexicographic `≤` on code-point lists, as Python / SQLite compare text. -/
def charListLe : List Char → List Char → Bool
  | [], _ => true
  | _ :: _, [] => false
  | a :: as, b :: bs => a < b || (a == b && charListLe as bs)

/-- Lexicographic `<` on code-point lists. -/
def charListLt : List Char → List Char → Bool
  | _, [] => false
  | [], _ :: _ => true
  | a :: as, b :: bs => a < b || (a == b && charListLt as bs)

/-- Model of Python `a <= b` on strings. -/
def strLe (a b : String) : Bool := charListLe a.data b.data

/-- Model of Python `a < b` on strings. -/
def strLt (a b : String) : Bool := charListLt a.data b.data

/-! ## Number formatting -/

/-- Left-pad a two-digit fractional part with a zero. -/
def padTwo (n : Nat) : String := if n < 10 then "0" ++ toString n else toString n

/-- Model of the Python float format `f"{q:.2f}"` on an exact rational. -/
def fmt2 (q : ℚ) : String :=
  let c : ℤ := round (q * 100)
  (if c < 0 then "-" else "") ++ toString (c.natAbs / 100) ++ "." ++ padTwo (c.natAbs % 100)

/-- Model of the Python float format `f"{q:.1f}"` on an exact rational. -/
def fmt1 (q : ℚ) : String :=
  let c : ℤ := round (q * 10)
  (if c < 0 then "-" else "") ++ toString (c.natAbs / 10) ++ "." ++ toString (c.natAbs % 10)

/-! ## Data model (`database.py`) -/

/-- One row of the `transactions` table, as returned by `get_transactions`. -/
structure Transaction where
  id : Nat
  type : String
  category : String
  amount : ℚ
  date : String
  description : String
deriving DecidableEq

/-- The persistent store: the stored rows and the AUTOINCREMENT counter. -/
structure DB where
  rows : List Transaction
  nextId : Nat
deriving DecidableEq

/-- The result shape of `get_summary`. -/
structure Summary where
  total_income : ℚ
  total_expenses : ℚ
  balance : ℚ
deriving DecidableEq

/-- Strings the chatbot derives from `datetime.now()`: the `%Y-%m` month
key, the `%B %Y` month label, and the `%Y-%m-%d` dates thirty and sixty
days back. -/
structure Clock where
  currentMonth : String
  monthLabel : String
  thirtyAgo : String
  sixtyAgo : String

/-- Sum of the `amount` fields of a list of transactions. -/
def sumAmounts (l : List Transaction) : ℚ := (l.map (·.amount)).sum

/-- Model of `init_db`: an empty table; AUTOINCREMENT ids start at 1. -/
def init_db : DB := ⟨[], 1⟩

/-- Model of `add_transaction`: INSERT assigns the next id and appends. -/
def add_transaction (db : DB) (type category : String) (amount : ℚ)
    (date description : String) : DB :=
  ⟨db.rows ++ [⟨db.nextId, type, category, amount, date, description⟩], db.nextId + 1⟩

/-- Date-descending order used by `SELECT ... ORDER BY date DESC`. -/
def dateGe (a b : Transaction) : Prop := charListLe b.date.data a.date.data = true

instance : DecidableRel dateGe :=
  fun a b => inferInstanceAs (Decidable (charListLe b.date.data a.date.data = true))

/-- Model of `get_transactions`: all rows ordered by `date` descending
(ties in insertion order). -/
def get_transactions (db : DB) : List Transaction :=
  List.insertionSort dateGe db.rows

/-- Model of `get_summary`: `SUM(amount)` over `type = 'income'` and over
`type = 'expense'` (NULL on an empty selection is turned into 0 by the
`or 0`), and their difference. -/
def get_summary (db : DB) : Summary :=
  let total_income := sumAmounts (db.rows.filter (fun t => t.type == "income"))
  let total_expenses := sumAmounts (db.rows.filter (fun t => t.type == "expense"))
  ⟨total_income, total_expenses, total_income - total_expenses⟩

/-- Model of `delete_transaction`: DELETE the rows with the given id. -/
def delete_transaction (db : DB) (transaction_id : Nat) : DB :=
  { db with rows := db.rows.filter (fun t => t.id != transaction_id) }

/-! ## Chatbot (`chatbot.py`) -/

/-- Model of `get_monthly_spending`: the expense total over transactions
whose date starts with the current `%Y-%m` month key. -/
def get_monthly_spending (transactions : List Transaction) (currency_symbol : String)
    (clk : Clock) : String :=
  let monthly_expenses := sumAmounts (transactions.filter
    (fun t => t.type == "expense" && strStarts t.date clk.currentMonth))
  "You spent " ++ currency_symbol ++ fmt2 monthly_expenses ++ " this month ("
    ++ clk.monthLabel ++ ")."

/-- Model of `get_budget_recommendation`: the fixed-ratio split of the
store-wide total income, guarded by the zero-income prompt.  Note the
Python function reads `get_summary()` from the store, not the
`transactions` argument. -/
def get_budget_recommendation (transactions : List Transaction) (currency_symbol : String)
    (db : DB) : String :=
  let total_income := (get_summary db).total_income
  if total_income = 0 then
    "💡 Add some income transactions to get personalized budget recommendations."
  else
    let recommended_budget : List (String × ℚ) :=
      [("Food", total_income * 0.15), ("Transport", total_income * 0.10),
       ("Entertainment", total_income * 0.10), ("Utilities", total_income * 0.10),
       ("Healthcare", total_income * 0.05), ("Shopping", total_income * 0.10),
       ("Savings", total_income * 0.40)]
    "📊 **Recommended Monthly Budget** (based on your total income of "
      ++ currency_symbol ++ fmt2 total_income ++ "):\n\n"
      ++ String.join (recommended_budget.map
          (fun p => "• **" ++ p.1 ++ "**: " ++ currency_symbol ++ fmt2 p.2 ++ "\n"))
      ++ "\n💡 *Tip: Try to save at least 40% of your income for financial security.*"

/-- Model of one step of the `category_totals` dictionary update
`category_totals[category] = category_totals.get(category, 0) + amount`,
on an insertion-ordered association list. -/
def addToGroup (k : String) (v : ℚ) : List (String × ℚ) → List (String × ℚ)
  | [] => [(k, v)]
  | p :: rest => if p.1 == k then (p.1, p.2 + v) :: rest else p :: addToGroup k v rest

/-- Fold step of the grouping loops in `get_expense_breakdown` and
`get_savings_tips`: expenses contribute to their category bucket. -/
def groupStep (acc : List (String × ℚ)) (t : Transaction) : List (String × ℚ) :=
  if t.type == "expense" then addToGroup t.category t.amount acc else acc

/-- The `category_totals` dictionary: expense totals per category, in
first-seen category order. -/
def categoryTotals (transactions : List Transaction) : List (String × ℚ) :=
  transactions.foldl groupStep []

/-- Amount-descending order used by `sorted(..., key=lambda x: x[1],
reverse=True)`. -/
def amtGe (a b : String × ℚ) : Prop := b.2 ≤ a.2

instance : DecidableRel amtGe :=
  fun a b => inferInstanceAs (Decidable (b.2 ≤ a.2))

/-- The sorted category list `get_expense_breakdown` iterates over:
amount-descending, ties in insertion order. -/
def breakdownSorted (transactions : List Transaction) : List (String × ℚ) :=
  List.insertionSort amtGe (categoryTotals transactions)

/-- One bullet line of the breakdown report; the percentage is guarded by
`if total_expenses > 0 else 0` exactly as in the source. -/
def breakdownLine (currency_symbol : String) (total : ℚ) (p : String × ℚ) : String :=
  let percentage : ℚ := if 0 < total then p.2 / total * 100 else 0
  "• **" ++ p.1 ++ "**: " ++ currency_symbol ++ fmt2 p.2 ++ " (" ++ fmt1 percentage ++ "%)\n"

/-- Model of `get_expense_breakdown`. -/
def get_expense_breakdown (transactions : List Transaction) (currency_symbol : String) :
    String :=
  let category_totals := categoryTotals transactions
  if category_totals.isEmpty then
    "📝 No expenses recorded yet. Start adding expenses to see your breakdown!"
  else
    let total_expenses := (category_totals.map (·.2)).sum
    "💰 **Your Expense Breakdown by Category**:\n\n"
      ++ String.join ((List.insertionSort amtGe category_totals).map
          (breakdownLine currency_symbol total_expenses))
      ++ "\n**Total**: " ++ currency_symbol ++ fmt2 total_expenses

/-- The `recent_transactions` window: `t['date'] >= thirty_days_ago`,
a string comparison on the ISO dates. -/
def trendsRecent (transactions : List Transaction) (clk : Clock) : List Transaction :=
  transactions.filter (fun t => strLe clk.thirtyAgo t.date)

/-- The `previous_period` window:
`sixty_days_ago <= t['date'] < thirty_days_ago and t['type'] == 'expense'`,
string comparisons on the ISO dates. -/
def trendsPrevious (transactions : List Transaction) (clk : Clock) : List Transaction :=
  transactions.filter
    (fun t => strLe clk.sixtyAgo t.date && strLt t.date clk.thirtyAgo && t.type == "expense")

/-- Expense total of the trailing window (`total_recent`). -/
def totalRecentExpense (transactions : List Transaction) (clk : Clock) : ℚ :=
  sumAmounts ((trendsRecent transactions clk).filter (fun t => t.type == "expense"))

/-- The percent change `((total_recent - prev_total) / prev_total * 100)`,
guarded by `if prev_total > 0 else 0` exactly as in the source. -/
def trendChange (transactions : List Transaction) (clk : Clock) : ℚ :=
  let prev_total := sumAmounts (trendsPrevious transactions clk)
  if 0 < prev_total then
    (totalRecentExpense transactions clk - prev_total) / prev_total * 100
  else 0

/-- The first two report lines of `get_spending_trends`. -/
def trendsBase (transactions : List Transaction) (currency_symbol : String)
    (clk : Clock) : String :=
  "📈 **Spending Trends (Last 30 Days)**:\n\n"
    ++ "• **Total spending**: " ++ currency_symbol
    ++ fmt2 (totalRecentExpense transactions clk) ++ "\n"
    ++ "• **Average daily spending**: " ++ currency_symbol
    ++ fmt2 (totalRecentExpense transactions clk / 30) ++ "\n"

/-- Model of `get_spending_trends`. -/
def get_spending_trends (transactions : List Transaction) (currency_symbol : String)
    (clk : Clock) : String :=
  if transactions.isEmpty then
    "📊 No transactions to analyze yet. Start tracking to see your spending trends!"
  else if (trendsRecent transactions clk).isEmpty then
    "📅 No transactions in the last 30 days."
  else if (trendsPrevious transactions clk).isEmpty then
    trendsBase transactions currency_symbol clk
  else
    let change := trendChange transactions clk
    trendsBase transactions currency_symbol clk
      ++ "• **Trend**: "
      ++ (if 0 < change then "📈" else if change < 0 then "📉" else "➡️")
      ++ " " ++ fmt1 |change| ++ "% "
      ++ (if 0 < change then "increase" else if change < 0 then "decrease" else "no change")
      ++ " from previous month\n"

/-- The fixed category-to-tip lookup table of `get_savings_tips`. -/
def tipsTable : List (String × String) :=
  [("Food", "🍳 Consider meal planning and cooking at home to reduce food expenses."),
   ("Transport", "🚌 Use public transportation or carpool to save on transport costs."),
   ("Entertainment", "🎭 Look for free or low-cost entertainment options in your area."),
   ("Shopping", "🛍️ Set a budget for shopping and avoid impulse purchases."),
   ("Utilities", "💡 Reduce energy consumption by using LED bulbs and unplugging devices."),
   ("Healthcare", "🏥 Maintain preventive care to avoid expensive medical bills.")]

/-- Model of Python `max(category_totals, key=category_totals.get)` on a
nonempty insertion-ordered association list: the first key of maximal
value. -/
def maxByAmount (h : String × ℚ) (rest : List (String × ℚ)) : String × ℚ :=
  rest.foldl (fun acc p => if acc.2 < p.2 then p else acc) h

/-- Model of `get_savings_tips`. -/
def get_savings_tips (transactions : List Transaction) (currency_symbol : String) : String :=
  match categoryTotals transactions with
  | [] => "💡 Start tracking expenses to get personalized savings tips!"
  | h :: rest =>
    let best := maxByAmount h rest
    let tip := match tipsTable.find? (fun p => p.1 == best.1) with
      | some p => p.2
      | none => "Consider reducing this expense."
    "💡 **Personalized Savings Tips**:\n\n"
      ++ "Your highest spending is on **" ++ best.1 ++ "** (" ++ currency_symbol
      ++ fmt2 best.2 ++ "). " ++ tip ++ "\n\n"
      ++ "**General Money-Saving Tips**:\n"
      ++ "✓ Track all your expenses daily\n"
      ++ "✓ Set monthly budget goals for each category\n"
      ++ "✓ Build an emergency fund (3-6 months of expenses)\n"
      ++ "✓ Review and adjust your budget regularly\n"
      ++ "✓ Automate savings transfers\n"

/-- Model of `get_financial_insights`; it reads `get_summary()` from the
store. -/
def get_financial_insights (transactions : List Transaction) (currency_symbol : String)
    (db : DB) : String :=
  let summary := get_summary db
  let base := "📊 **Your Financial Overview**:\n\n"
    ++ "• **Total Income**: " ++ currency_symbol ++ fmt2 summary.total_income ++ "\n"
    ++ "• **Total Expenses**: " ++ currency_symbol ++ fmt2 summary.total_expenses ++ "\n"
    ++ "• **Current Balance**: " ++ currency_symbol ++ fmt2 summary.balance ++ "\n\n"
  if 0 < summary.balance then
    let savings_rate : ℚ :=
      if 0 < summary.total_income then summary.balance / summary.total_income * 100 else 0
    let r := base ++ "✅ Great job! You\x27re saving " ++ fmt1 savings_rate
      ++ "% of your income. Keep it up!\n"
    if savings_rate < 20 then
      r ++ "💡 Try to increase your savings rate to at least 20% for better financial security."
    else if 40 ≤ savings_rate then
      r ++ "🌟 Excellent savings rate! You\x27re building a strong financial foundation."
    else r
  else if summary.balance < 0 then
    base ++ "⚠️ You\x27re spending more than you earn. Consider:\n"
      ++ "• Reviewing your expenses and cutting unnecessary costs\n"
      ++ "• Finding ways to increase your income\n"
      ++ "• Creating a strict budget to get back on track"
  else
    base ++ "➡️ Your income and expenses are balanced. Consider saving more for emergencies."

/-- Model of `get_chatbot_response`: lower-case the input and run the
ordered keyword dispatch.  The `db` parameter stands for the persistent
store the branch handlers read through `get_summary()`; `clk` carries the
strings derived from `datetime.now()`. -/
def get_chatbot_response (user_input : String) (transactions : List Transaction)
    (currency_symbol : String) (db : DB) (clk : Clock) : String :=
  let l := lowerStr user_input
  if strContains l "spend" && strContains l "month" then
    get_monthly_spending transactions currency_symbol clk
  else if strContains l "total expense" || strContains l "how much did i spend" then
    "Your total expenses are " ++ currency_symbol ++ fmt2 (get_summary db).total_expenses
  else if strContains l "total income" || strContains l "how much did i earn" then
    "Your total income is " ++ currency_symbol ++ fmt2 (get_summary db).total_income
  else if strContains l "balance" || strContains l "how much do i have" then
    "Your current balance is " ++ currency_symbol ++ fmt2 (get_summary db).balance
  else if strContains l "budget" || strContains l "suggest" then
    get_budget_recommendation transactions currency_symbol db
  else if strContains l "breakdown" || strContains l "category" then
    get_expense_breakdown transactions currency_symbol
  else if strContains l "trend" || strContains l "pattern" then
    get_spending_trends transactions currency_symbol clk
  else if strContains l "save" || strContains l "tip" then
    get_savings_tips transactions currency_symbol
  else
    get_financial_insights transactions currency_symbol db

/-! ## Spec-side definitions (for refinement comparisons) -/

/-- First-match-wins evaluation of an ordered list of (predicate, response)
rules, with a default: the dispatch shape the spec prescribes. -/
def firstMatch (dflt : String) : List (Bool × String) → String
  | [] => dflt
  | p :: rest => if p.1 then p.2 else firstMatch dflt rest

/-- Dispatch written the way the spec states it: lower-case the input, then
an explicit ordered list of keyword predicates, first match wins, falling
through to the general overview. -/
def respondSpec (user_input : String) (transactions : List Transaction)
    (currency_symbol : String) (db : DB) (clk : Clock) : String :=
  let l := lowerStr user_input
  firstMatch (get_financial_insights transactions currency_symbol db)
    [(strContains l "spend" && strContains l "month",
        get_monthly_spending transactions currency_symbol clk),
     (strContains l "total expense" || strContains l "how much did i spend",
        "Your total expenses are " ++ currency_symbol ++ fmt2 (get_summary db).total_expenses),
     (strContains l "total income" || strContains l "how much did i earn",
        "Your total income is " ++ currency_symbol ++ fmt2 (get_summary db).total_income),
     (strContains l "balance" || strContains l "how much do i have",
        "Your current balance is " ++ currency_symbol ++ fmt2 (get_summary db).balance),
     (strContains l "budget" || strContains l "suggest",
        get_budget_recommendation transactions currency_symbol db),
     (strContains l "breakdown" || strContains l "category",
        get_expense_breakdown transactions currency_symbol),
     (strContains l "trend" || strContains l "pattern",
        get_spending_trends transactions currency_symbol clk),
     (strContains l "save" || strContains l "tip",
        get_savings_tips transactions currency_symbol)]

/-- Budget recommendation as the spec words it: a 15/10/10/10/5/10/40
percent split of the total income across the six named categories plus
savings. -/
def budgetRecommendationSpec (currency_symbol : String) (income : ℚ) : String :=
  "📊 **Recommended Monthly Budget** (based on your total income of "
    ++ currency_symbol ++ fmt2 income ++ "):\n\n"
    ++ String.join (([("Food", 15), ("Transport", 10), ("Entertainment", 10),
        ("Utilities", 10), ("Healthcare", 5), ("Shopping", 10), ("Savings", 40)]
          : List (String × ℚ)).map
        (fun p => "• **" ++ p.1 ++ "**: " ++ currency_symbol
          ++ fmt2 (income * p.2 / 100) ++ "\n"))
    ++ "\n💡 *Tip: Try to save at least 40% of your income for financial security.*"

/-! ## Bookkeeping for sequences of adds -/

/-- The user-supplied fields of one `add_transaction` call. -/
structure AddReq where
  type : String
  category : String
  amount : ℚ
  date : String
  description : String
deriving DecidableEq

/-- Run a sequence of `add_transaction` calls against a store. -/
def applyAdds (db : DB) : List AddReq → DB
  | [] => db
  | r :: rs => applyAdds (add_transaction db r.type r.category r.amount r.date r.description) rs

/-- The user-supplied fields of a stored row, forgetting the assigned id. -/
def payload (t : Transaction) : AddReq :=
  ⟨t.type, t.category, t.amount, t.date, t.description⟩

/-- The rows a sequence of adds produces, given the first fresh id. -/
def buildRows (n : Nat) : List AddReq → List Transaction
  | [] => []
  | r :: rs => ⟨n, r.type, r.category, r.amount, r.date, r.description⟩ :: buildRows (n + 1) rs

/-! ## Aggregation helpers referenced by the breakdown theorems -/

/-- Total expense amount of one category in a transaction list. -/
def expenseCatSum (transactions : List Transaction) (c : String) : ℚ :=
  sumAmounts (transactions.filter (fun t => t.type == "expense" && t.category == c))

/-- Total amount recorded for a key in an association list. -/
def groupAmount (l : List (String × ℚ)) (c : String) : ℚ :=
  ((l.filter (fun p => p.1 == c)).map (·.2)).sum

/-! ## Concrete fixtures used in counterexamples and witnesses -/

/-- A fixed clock: January 2024, thirty/sixty day cutoffs. -/
def clk0 : Clock := ⟨"2024-01", "January 2024", "2024-01-01", "2023-12-02"⟩

/-- A store holding a single 5-unit expense. -/
def db1 : DB := ⟨[⟨1, "expense", "Food", 5, "2024-01-01", ""⟩], 2⟩

/-- A store holding a single 1000-unit income. -/
def db2 : DB := ⟨[⟨1, "income", "Salary", 1000, "2024-01-01", ""⟩], 2⟩

/-- The two-expense list of the spec's breakdown example. -/
def exampleTx : List Transaction :=
  [⟨1, "expense", "Food", 60, "2024-01-05", ""⟩,
   ⟨2, "expense", "Transport", 40, "2024-01-06", ""⟩]

/-- A list with one expense in the trailing 30-day window and one in the
preceding window, relative to `clk0`. -/
def trendTx : List Transaction :=
  [⟨1, "expense", "Food", 60, "2024-01-10", ""⟩,
   ⟨2, "expense", "Transport", 40, "2023-12-15", ""⟩]

/-! ## Helper lemmas -/

theorem charListLe_cons (a b : Char) (as bs : List Char) :
    charListLe (a :: as) (b :: bs) = true ↔ a < b ∨ (a = b ∧ charListLe as bs = true) := by
  simp [charListLe]

theorem charListLe_total : ∀ as bs : List Char,
    charListLe as bs = true ∨ charListLe bs as = true
  | [], _ => Or.inl rfl
  | _ :: _, [] => Or.inr rfl
  | a :: as, b :: bs => by
    rcases lt_trichotomy a b with h | h | h
    · exact Or.inl ((charListLe_cons a b as bs).mpr (Or.inl h))
    · subst h
      rcases charListLe_total as bs with ih | ih
      · exact Or.inl ((charListLe_cons a a as bs).mpr (Or.inr ⟨rfl, ih⟩))
      · exact Or.inr ((charListLe_cons a a bs as).mpr (Or.inr ⟨rfl, ih⟩))
    · exact Or.inr ((charListLe_cons b a bs as).mpr (Or.inl h))

theorem charListLe_trans : ∀ as bs cs : List Char,
    charListLe as bs = true → charListLe bs cs = true → charListLe as cs = true
  | [], _, _, _, _ => rfl
  | _ :: _, [], _, h, _ => by simp [charListLe] at h
  | _ :: _, _ :: _, [], _, h => by simp [charListLe] at h
  | a :: as, b :: bs, c :: cs, h1, h2 => by
    rw [charListLe_cons] at h1 h2 ⊢
    rcases h1 with h1 | ⟨rfl, h1⟩
    · rcases h2 with h2 | ⟨rfl, h2⟩
      · exact Or.inl (lt_trans h1 h2)
      · exact Or.inl h1
    · rcases h2 with h2 | ⟨rfl, h2⟩
      · exact Or.inl h2
      · exact Or.inr ⟨rfl, charListLe_trans as bs cs h1 h2⟩

theorem append_ne_empty_left (s t : String) (h : s.data ≠ []) : s ++ t ≠ "" := by
  intro he
  have hd : (s ++ t).data = [] := by rw [he]
  rw [String.data_append] at hd
  exact h (List.append_eq_nil.mp hd).1

theorem fmt2_eq (q : ℚ) (c : ℤ) (h : round (q * 100) = c) :
    fmt2 q = (if c < 0 then "-" else "") ++ toString (c.natAbs / 100) ++ "."
      ++ padTwo (c.natAbs % 100) := by
  unfold fmt2
  rw [h]

theorem fmt1_eq (q : ℚ) (c : ℤ) (h : round (q * 10) = c) :
    fmt1 q = (if c < 0 then "-" else "") ++ toString (c.natAbs / 10) ++ "."
      ++ toString (c.natAbs % 10) := by
  unfold fmt1
  rw [h]

theorem fmt2_zero : fmt2 0 = "0.00" := by
  rw [fmt2_eq 0 0 (by norm_num [round_eq])]
  decide

theorem sumAmounts_filter_type (s : String) : ∀ l : List Transaction,
    sumAmounts (l.filter (fun t => t.type == s)) =
      (l.map (fun t => if t.type = s then t.amount else 0)).sum
  | [] => rfl
  | t :: l => by
    by_cases h : t.type = s
    · simp [sumAmounts, List.filter_cons, h, ← sumAmounts_filter_type s l]
    · simp [sumAmounts, List.filter_cons, h, ← sumAmounts_filter_type s l]

/-! ## Claim theorems -/

/-- Claim C2: for every input text, `get_chatbot_response` lower-cases the
text and selects exactly the first branch whose keyword predicate holds,
testing the predicates in the specified order, falling through to the
general overview when none matches: it coincides with the explicit
first-match-wins rule list `respondSpec`. -/
theorem get_chatbot_response_dispatch_order (user_input : String)
    (transactions : List Transaction) (currency_symbol : String) (db : DB) (clk : Clock) :
    get_chatbot_response user_input transactions currency_symbol db clk =
      respondSpec user_input transactions currency_symbol db clk := rfl

/-- Claim C3: `get_summary` returns the income total, the expense total,
and their difference as the balance; on an empty transaction set all three
values are zero. -/
theorem get_summary_totals (db : DB) :
    ((get_summary db).total_income =
        (db.rows.map (fun t => if t.type = "income" then t.amount else 0)).sum)
  ∧ ((get_summary db).total_expenses =
        (db.rows.map (fun t => if t.type = "expense" then t.amount else 0)).sum)
  ∧ ((get_summary db).balance =
        (get_summary db).total_income - (get_summary db).total_expenses)
  ∧ (∀ n : Nat, get_summary ⟨[], n⟩ = ⟨0, 0, 0⟩) := by
  refine ⟨sumAmounts_filter_type "income" db.rows,
    sumAmounts_filter_type "expense" db.rows, rfl, ?_⟩
  intro n
  simp [get_summary, sumAmounts]

/-- Claim C5: after `delete_transaction id`, `get_transactions` contains no
record with that id, and deleting an id absent from the store leaves the
store unchanged. -/
theorem delete_transaction_spec (db : DB) (tid : Nat) :
    (∀ t ∈ get_transactions (delete_transaction db tid), t.id ≠ tid)
  ∧ ((∀ t ∈ db.rows, t.id ≠ tid) → delete_transaction db tid = db) := by
  constructor
  · intro t ht
    have ht' : t ∈ (delete_transaction db tid).rows :=
      ((List.perm_insertionSort dateGe (delete_transaction db tid).rows).mem_iff).mp ht
    have hp := (List.mem_filter.mp ht').2
    simpa using hp
  · intro h
    have hf : db.rows.filter (fun t => t.id != tid) = db.rows :=
      List.filter_eq_self.mpr (fun t ht => by simpa using h t ht)
    simp [delete_transaction, hf]

theorem delete_transaction_spec_witness : delete_transaction db2 99 = db2 :=
  (delete_transaction_spec db2 99).2 (by decide)

/-- Claim C10: a transaction whose type is neither income nor expense is
stored by `add_transaction` without validation and appears in
`get_transactions`, yet `get_summary` is unchanged by it, so the reported
balance is unchanged. -/
theorem add_transaction_unvalidated_type (db : DB) (ty cat : String) (amt : ℚ)
    (d ds : String) (h1 : ty ≠ "income") (h2 : ty ≠ "expense") :
    ((⟨db.nextId, ty, cat, amt, d, ds⟩ : Transaction) ∈
        get_transactions (add_transaction db ty cat amt d ds))
  ∧ get_summary (add_transaction db ty cat amt d ds) = get_summary db := by
  constructor
  · exact ((List.perm_insertionSort dateGe
        (add_transaction db ty cat amt d ds).rows).mem_iff).mpr (by simp [add_transaction])
  · simp [get_summary, add_transaction, List.filter_append, List.filter_cons, h1, h2]

theorem add_transaction_unvalidated_type_witness :
    ((⟨1, "transfer", "Misc", 5, "2024-01-01", "x"⟩ : Transaction) ∈
        get_transactions (add_transaction init_db "transfer" "Misc" 5 "2024-01-01" "x"))
  ∧ get_summary (add_transaction init_db "transfer" "Misc" 5 "2024-01-01" "x") =
      get_summary init_db :=
  add_transaction_unvalidated_type init_db "transfer" "Misc" 5 "2024-01-01" "x"
    (by decide) (by decide)

theorem applyAdds_rows : ∀ (adds : List AddReq) (db : DB),
    (applyAdds db adds).rows = db.rows ++ buildRows db.nextId adds
  | [], db => by simp [applyAdds, buildRows]
  | r :: rs, db => by
    show (applyAdds (add_transaction db r.type r.category r.amount r.date r.description) rs).rows
      = _
    rw [applyAdds_rows rs]
    simp [add_transaction, buildRows]

theorem buildRows_map_payload : ∀ (n : Nat) (adds : List AddReq),
    (buildRows n adds).map payload = adds
  | _, [] => rfl
  | n, r :: rs => by simp [buildRows, payload, buildRows_map_payload (n + 1) rs]

theorem buildRows_map_id : ∀ (n : Nat) (adds : List AddReq),
    (buildRows n adds).map (·.id) = List.range' n adds.length
  | _, [] => rfl
  | n, r :: rs => by simp [buildRows, List.range', buildRows_map_id (n + 1) rs]

/-- Claim C4: after any sequence of adds on a fresh store, `get_transactions`
returns exactly the added records (the payload multiset is the add sequence,
the store assigns ids 1, 2, ...), ordered by date descending. -/
theorem get_transactions_after_adds (adds : List AddReq) :
    ((get_transactions (applyAdds init_db adds)).map payload).Perm adds
  ∧ (applyAdds init_db adds).rows.map payload = adds
  ∧ (applyAdds init_db adds).rows.map (·.id) = List.range' 1 adds.length
  ∧ List.Sorted dateGe (get_transactions (applyAdds init_db adds)) := by
  have hrows : (applyAdds init_db adds).rows.map payload = adds := by
    rw [applyAdds_rows]
    show (buildRows 1 adds).map payload = adds
    exact buildRows_map_payload 1 adds
  refine ⟨?_, hrows, ?_, ?_⟩
  · have hp := (List.perm_insertionSort dateGe (applyAdds init_db adds).rows).map payload
    rw [hrows] at hp
    exact hp
  · rw [applyAdds_rows]
    show (buildRows 1 adds).map (·.id) = List.range' 1 adds.length
    exact buildRows_map_id 1 adds
  · haveI : IsTotal Transaction dateGe :=
      ⟨fun a b => charListLe_total b.date.data a.date.data⟩
    haveI : IsTrans Transaction dateGe :=
      ⟨fun a b c h1 h2 => charListLe_trans c.date.data b.date.data a.date.data h2 h1⟩
    exact List.sorted_insertionSort dateGe _

theorem data_ne_nil_append (a b : String) (h : a.data ≠ []) : (a ++ b).data ≠ [] := by
  rw [String.data_append]
  intro hc
  exact h (List.append_eq_nil.mp hc).1

theorem respond_total_expense (transactions : List Transaction) (cur : String)
    (db : DB) (clk : Clock) :
    get_chatbot_response "total expense" transactions cur db clk =
      "Your total expenses are " ++ cur ++ fmt2 (get_summary db).total_expenses := rfl

/-- Claim C1 is refuted: with identical text, transaction list and currency
symbol but different persistent stores, `get_chatbot_response` returns
different strings — the total-expense branch reads `get_summary()` from the
store, not the `transactions` argument. -/
theorem get_chatbot_response_reads_store :
    get_chatbot_response "total expense" [] "$" init_db clk0 ≠
      get_chatbot_response "total expense" [] "$" db1 clk0 := by
  rw [respond_total_expense, respond_total_expense]
  have h0 : (get_summary init_db).total_expenses = 0 := rfl
  have hf : db1.rows.filter (fun t => t.type == "expense") = db1.rows := by decide
  have h1 : (get_summary db1).total_expenses = 5 := by
    show sumAmounts (db1.rows.filter (fun t => t.type == "expense")) = 5
    rw [hf]
    norm_num [db1, sumAmounts]
  have h5 : fmt2 5 = "5.00" := by
    rw [fmt2_eq 5 500 (by norm_num [round_eq])]
    decide
  rw [h0, h1, fmt2_zero, h5]
  decide

/-- Claim C1 (amended): `get_chatbot_response` is a pure function of the
input text, transaction list, currency symbol, the clock, and the summary
derived from the persistent store — two invocations whose stores yield
equal summaries return identical result strings. -/
theorem get_chatbot_response_pure_given_summary (user_input : String)
    (transactions : List Transaction) (currency_symbol : String) (dba dbb : DB)
    (clk : Clock) (h : get_summary dba = get_summary dbb) :
    get_chatbot_response user_input transactions currency_symbol dba clk =
      get_chatbot_response user_input transactions currency_symbol dbb clk := by
  simp only [get_chatbot_response, get_budget_recommendation, get_financial_insights, h]

theorem get_chatbot_response_pure_given_summary_witness :
    get_chatbot_response "balance" [] "$" ⟨[], 1⟩ clk0 =
      get_chatbot_response "balance" [] "$" ⟨[], 7⟩ clk0 :=
  get_chatbot_response_pure_given_summary "balance" [] "$" ⟨[], 1⟩ ⟨[], 7⟩ clk0 rfl


theorem get_monthly_spending_ne_empty (transactions : List Transaction)
    (currency_symbol : String) (clk : Clock) :
    get_monthly_spending transactions currency_symbol clk ≠ "" := by
  apply append_ne_empty_left
  repeat apply data_ne_nil_append
  decide

theorem get_budget_recommendation_ne_empty (transactions : List Transaction)
    (currency_symbol : String) (db : DB) :
    get_budget_recommendation transactions currency_symbol db ≠ "" := by
  simp only [get_budget_recommendation]
  split
  · decide
  · apply append_ne_empty_left
    repeat apply data_ne_nil_append
    decide

theorem get_expense_breakdown_ne_empty (transactions : List Transaction)
    (currency_symbol : String) :
    get_expense_breakdown transactions currency_symbol ≠ "" := by
  simp only [get_expense_breakdown]
  split
  · decide
  · apply append_ne_empty_left
    apply data_ne_nil_append
    apply data_ne_nil_append
    apply data_ne_nil_append
    decide

theorem get_spending_trends_ne_empty (transactions : List Transaction)
    (currency_symbol : String) (clk : Clock) :
    get_spending_trends transactions currency_symbol clk ≠ "" := by
  simp only [get_spending_trends]
  repeat' split
  all_goals
    first
      | decide
      | (apply append_ne_empty_left
         repeat apply data_ne_nil_append
         decide)

theorem get_savings_tips_ne_empty (transactions : List Transaction)
    (currency_symbol : String) :
    get_savings_tips transactions currency_symbol ≠ "" := by
  simp only [get_savings_tips]
  split
  · decide
  · apply append_ne_empty_left
    repeat apply data_ne_nil_append
    decide

theorem get_financial_insights_ne_empty (transactions : List Transaction)
    (currency_symbol : String) (db : DB) :
    get_financial_insights transactions currency_symbol db ≠ "" := by
  simp only [get_financial_insights]
  repeat' split
  all_goals
    apply append_ne_empty_left
  all_goals
    repeat apply data_ne_nil_append
  all_goals decide

/-- Claim C9: with an empty transaction list `get_chatbot_response` returns
a nonempty explanatory message in every dispatch branch; and the
spend-this-month query over transactions none of which is dated in the
current month reports a $0.00 total instead of failing. -/
theorem get_chatbot_response_total_on_empty (user_input currency_symbol : String)
    (db : DB) (clk : Clock) (transactions : List Transaction) :
    (get_chatbot_response user_input [] currency_symbol db clk ≠ "")
  ∧ ((∀ t ∈ transactions, strStarts t.date clk.currentMonth = false) →
      get_chatbot_response "how much did I spend this month?" transactions "$" db clk =
        "You spent $0.00 this month (" ++ clk.monthLabel ++ ").") := by
  constructor
  · simp only [get_chatbot_response]
    repeat' split
    all_goals
      first
        | exact get_monthly_spending_ne_empty [] currency_symbol clk
        | exact get_budget_recommendation_ne_empty [] currency_symbol db
        | exact get_expense_breakdown_ne_empty [] currency_symbol
        | exact get_spending_trends_ne_empty [] currency_symbol clk
        | exact get_savings_tips_ne_empty [] currency_symbol
        | exact get_financial_insights_ne_empty [] currency_symbol db
        | (apply append_ne_empty_left
           repeat apply data_ne_nil_append
           decide)
  · intro h
    have hf : transactions.filter
        (fun t => t.type == "expense" && strStarts t.date clk.currentMonth) = [] := by
      rw [List.filter_eq_nil_iff]
      intro t ht
      simp [h t ht]
    show get_monthly_spending transactions "$" clk = _
    simp only [get_monthly_spending]
    rw [hf]
    rw [show sumAmounts ([] : List Transaction) = 0 from rfl, fmt2_zero]
    rfl

theorem get_chatbot_response_total_on_empty_witness :
    (get_chatbot_response "hello" [] "$" init_db clk0 ≠ "")
  ∧ get_chatbot_response "how much did I spend this month?" [] "$" init_db clk0 =
      "You spent $0.00 this month (" ++ clk0.monthLabel ++ ")." :=
  ⟨(get_chatbot_response_total_on_empty "hello" "$" init_db clk0 []).1,
   (get_chatbot_response_total_on_empty "hello" "$" init_db clk0 []).2
     (fun t ht => absurd ht (List.not_mem_nil t))⟩

/-- Claim C6: in the budget branch, zero total income yields the add-income
prompt rather than a division fault; positive total income `I` yields the
recommendation splitting `I` as Food 15%, Transport 10%, Entertainment 10%,
Utilities 10%, Healthcare 5%, Shopping 10%, Savings 40%. -/
theorem get_budget_recommendation_split (transactions : List Transaction)
    (currency_symbol : String) (db : DB) :
    ((get_summary db).total_income = 0 →
      get_budget_recommendation transactions currency_symbol db =
        "💡 Add some income transactions to get personalized budget recommendations.")
  ∧ (0 < (get_summary db).total_income →
      get_budget_recommendation transactions currency_symbol db =
        budgetRecommendationSpec currency_symbol (get_summary db).total_income) := by
  constructor
  · intro h
    simp only [get_budget_recommendation, if_pos h]
  · intro h
    have hne : (get_summary db).total_income ≠ 0 := ne_of_gt h
    simp only [get_budget_recommendation, budgetRecommendationSpec, if_neg hne,
      String.join, List.map, List.foldl, mul_div_assoc,
      show (0.15 : ℚ) = 15 / 100 from by norm_num,
      show (0.10 : ℚ) = 10 / 100 from by norm_num,
      show (0.05 : ℚ) = 5 / 100 from by norm_num,
      show (0.40 : ℚ) = 40 / 100 from by norm_num]

theorem get_budget_recommendation_split_witness :
    (get_budget_recommendation [] "$" init_db =
      "💡 Add some income transactions to get personalized budget recommendations.")
  ∧ (get_budget_recommendation [] "$" db2 =
      budgetRecommendationSpec "$" (get_summary db2).total_income) :=
  ⟨(get_budget_recommendation_split [] "$" init_db).1 rfl,
   (get_budget_recommendation_split [] "$" db2).2 (by
      have hf : db2.rows.filter (fun t => t.type == "income") = db2.rows := by decide
      show 0 < sumAmounts (db2.rows.filter (fun t => t.type == "income"))
      rw [hf]
      norm_num [db2, sumAmounts])⟩

theorem groupAmount_cons (q : String × ℚ) (l : List (String × ℚ)) (c : String) :
    groupAmount (q :: l) c = (if q.1 = c then q.2 else 0) + groupAmount l c := by
  by_cases h : q.1 = c <;> simp [groupAmount, List.filter_cons, h]

theorem groupAmount_addToGroup (k : String) (v : ℚ) (c : String) :
    ∀ acc : List (String × ℚ),
      groupAmount (addToGroup k v acc) c = groupAmount acc c + (if k = c then v else 0)
  | [] => by
    by_cases h : k = c <;> simp [addToGroup, groupAmount, h]
  | p :: acc => by
    by_cases hk : p.1 = k
    · have hb : (p.1 == k) = true := by simp [hk]
      rw [show addToGroup k v (p :: acc) = (p.1, p.2 + v) :: acc from by
        simp [addToGroup, hb]]
      rw [groupAmount_cons, groupAmount_cons]
      by_cases hc : p.1 = c
      · rw [if_pos hc, if_pos hc, if_pos (hk.symm.trans hc)]
        ring
      · rw [if_neg hc, if_neg hc, if_neg (fun he => hc (hk.trans he))]
        ring
    · have hb : (p.1 == k) = false := by simp [hk]
      rw [show addToGroup k v (p :: acc) = p :: addToGroup k v acc from by
        simp [addToGroup, hb]]
      rw [groupAmount_cons, groupAmount_cons, groupAmount_addToGroup k v c acc]
      ring

theorem groupAmount_foldl (c : String) : ∀ (ts : List Transaction) (acc : List (String × ℚ)),
    groupAmount (ts.foldl groupStep acc) c = groupAmount acc c + expenseCatSum ts c
  | [], acc => by simp [expenseCatSum, sumAmounts, groupAmount]
  | t :: ts, acc => by
    rw [List.foldl_cons, groupAmount_foldl c ts]
    by_cases he : t.type = "expense"
    · by_cases hcat : t.category = c <;>
        simp [groupStep, he, hcat, groupAmount_addToGroup, expenseCatSum, sumAmounts,
          List.filter_cons] <;> ring
    · simp [groupStep, he, expenseCatSum, sumAmounts, List.filter_cons]

theorem snd_sum_addToGroup (k : String) (v : ℚ) : ∀ acc : List (String × ℚ),
    ((addToGroup k v acc).map (·.2)).sum = (acc.map (·.2)).sum + v
  | [] => by simp [addToGroup]
  | p :: acc => by
    by_cases h : p.1 = k
    · simp [addToGroup, h]
      ring
    · simp [addToGroup, h, snd_sum_addToGroup k v acc]
      ring

theorem snd_sum_foldl : ∀ (ts : List Transaction) (acc : List (String × ℚ)),
    ((ts.foldl groupStep acc).map (·.2)).sum =
      (acc.map (·.2)).sum + sumAmounts (ts.filter (fun t => t.type == "expense"))
  | [], acc => by simp [sumAmounts]
  | t :: ts, acc => by
    rw [List.foldl_cons, snd_sum_foldl ts]
    by_cases he : t.type = "expense" <;>
      simp [groupStep, he, snd_sum_addToGroup, sumAmounts, List.filter_cons] <;> ring

theorem groupAmount_perm (c : String) (la lb : List (String × ℚ)) (h : la.Perm lb) :
    groupAmount la c = groupAmount lb c :=
  ((h.filter _).map _).sum_eq

/-- Claim C7: the breakdown branch groups expense transactions by category
(each listed category total is the sum of that category's expense amounts,
and the listed totals sum to the overall expense total), lists them in
descending order of amount, and on the example `[expense Food 60,
expense Transport 40]` renders Food at 60.0% first and Transport at 40.0%
second. -/
theorem get_expense_breakdown_spec (transactions : List Transaction)
    (currency_symbol : String) :
    List.Sorted amtGe (breakdownSorted transactions)
  ∧ (∀ c : String,
      groupAmount (breakdownSorted transactions) c = expenseCatSum transactions c)
  ∧ ((breakdownSorted transactions).map (·.2)).sum =
      sumAmounts (transactions.filter (fun t => t.type == "expense"))
  ∧ get_expense_breakdown exampleTx "$" =
      "💰 **Your Expense Breakdown by Category**:\n\n• **Food**: $60.00 (60.0%)\n• **Transport**: $40.00 (40.0%)\n\n**Total**: $100.00" := by
  refine ⟨?_, ?_, ?_, ?_⟩
  · haveI : IsTotal (String × ℚ) amtGe := ⟨fun a b => le_total b.2 a.2⟩
    haveI : IsTrans (String × ℚ) amtGe := ⟨fun a b c h1 h2 => le_trans h2 h1⟩
    exact List.sorted_insertionSort amtGe _
  · intro c
    have h1 : groupAmount (breakdownSorted transactions) c =
        groupAmount (categoryTotals transactions) c :=
      groupAmount_perm c _ _ (List.perm_insertionSort amtGe (categoryTotals transactions))
    rw [h1]
    have h2 := groupAmount_foldl c transactions []
    simpa [categoryTotals, groupAmount] using h2
  · have hp : ((breakdownSorted transactions).map (·.2)).sum =
        ((categoryTotals transactions).map (·.2)).sum :=
      ((List.perm_insertionSort amtGe (categoryTotals transactions)).map _).sum_eq
    rw [hp]
    have h2 := snd_sum_foldl transactions []
    simpa [categoryTotals] using h2
  · have hct : categoryTotals exampleTx = [("Food", 60), ("Transport", 40)] := by decide
    have hsort : List.insertionSort amtGe [(("Food" : String), (60 : ℚ)), ("Transport", 40)] =
        [(("Food" : String), (60 : ℚ)), ("Transport", 40)] := by decide
    have hT : ([(60 : ℚ), 40]).sum = 100 := by norm_num
    have hfm60 : fmt2 60 = "60.00" := by
      rw [fmt2_eq 60 6000 (by norm_num [round_eq])]
      decide
    have hfm40 : fmt2 40 = "40.00" := by
      rw [fmt2_eq 40 4000 (by norm_num [round_eq])]
      decide
    have hfm100 : fmt2 100 = "100.00" := by
      rw [fmt2_eq 100 10000 (by norm_num [round_eq])]
      decide
    have hp60 : fmt1 ((60 : ℚ) / 100 * 100) = "60.0" := by
      rw [show (60 : ℚ) / 100 * 100 = 60 from by norm_num,
        fmt1_eq 60 600 (by norm_num [round_eq])]
      decide
    have hp40 : fmt1 ((40 : ℚ) / 100 * 100) = "40.0" := by
      rw [show (40 : ℚ) / 100 * 100 = 40 from by norm_num,
        fmt1_eq 40 400 (by norm_num [round_eq])]
      decide
    have hline1 : breakdownLine "$" 100 (("Food" : String), (60 : ℚ)) =
        "• **Food**: $60.00 (60.0%)\n" := by
      simp only [breakdownLine]
      rw [if_pos (show (0 : ℚ) < 100 from by norm_num), hp60, hfm60]
      decide
    have hline2 : breakdownLine "$" 100 (("Transport" : String), (40 : ℚ)) =
        "• **Transport**: $40.00 (40.0%)\n" := by
      simp only [breakdownLine]
      rw [if_pos (show (0 : ℚ) < 100 from by norm_num), hp40, hfm40]
      decide
    simp only [get_expense_breakdown, hct, hT, hsort, List.isEmpty_cons, List.map_cons,
      List.map_nil, hline1, hline2, hfm100]
    decide

/-- Claim C8: when both windows are populated, `get_spending_trends`
compares the expense total of the trailing 30-day window with that of the
preceding 30-day window — window membership decided by string comparison
on the ISO date strings — and reports the percent change
`(recent - previous) / previous * 100` with its direction (increase when
positive, decrease when negative). -/
theorem get_spending_trends_spec (transactions : List Transaction)
    (currency_symbol : String) (clk : Clock)
    (hne : transactions ≠ [])
    (hr : trendsRecent transactions clk ≠ [])
    (hp : trendsPrevious transactions clk ≠ [])
    (hpos : 0 < sumAmounts (trendsPrevious transactions clk)) :
    (∀ t, t ∈ trendsRecent transactions clk ↔
        t ∈ transactions ∧ strLe clk.thirtyAgo t.date = true)
  ∧ (∀ t, t ∈ trendsPrevious transactions clk ↔
        t ∈ transactions ∧ strLe clk.sixtyAgo t.date = true ∧
          strLt t.date clk.thirtyAgo = true ∧ t.type = "expense")
  ∧ trendChange transactions clk =
      (totalRecentExpense transactions clk - sumAmounts (trendsPrevious transactions clk)) /
        sumAmounts (trendsPrevious transactions clk) * 100
  ∧ get_spending_trends transactions currency_symbol clk =
      trendsBase transactions currency_symbol clk
        ++ "• **Trend**: "
        ++ (if 0 < trendChange transactions clk then "📈"
            else if trendChange transactions clk < 0 then "📉" else "➡️")
        ++ " " ++ fmt1 |trendChange transactions clk| ++ "% "
        ++ (if 0 < trendChange transactions clk then "increase"
            else if trendChange transactions clk < 0 then "decrease" else "no change")
        ++ " from previous month\n"
  ∧ (0 < trendChange transactions clk ↔
        sumAmounts (trendsPrevious transactions clk) < totalRecentExpense transactions clk)
  ∧ (trendChange transactions clk < 0 ↔
        totalRecentExpense transactions clk < sumAmounts (trendsPrevious transactions clk)) := by
  have hc3 : trendChange transactions clk =
      (totalRecentExpense transactions clk - sumAmounts (trendsPrevious transactions clk)) /
        sumAmounts (trendsPrevious transactions clk) * 100 := by
    simp only [trendChange]
    rw [if_pos hpos]
  have hkey : trendChange transactions clk =
      (totalRecentExpense transactions clk - sumAmounts (trendsPrevious transactions clk)) *
        100 / sumAmounts (trendsPrevious transactions clk) := by
    rw [hc3]
    ring
  refine ⟨?_, ?_, hc3, ?_, ?_, ?_⟩
  · intro t
    simp [trendsRecent, List.mem_filter]
  · intro t
    simp [trendsPrevious, List.mem_filter, Bool.and_eq_true, beq_iff_eq, and_assoc]
  · have h1 : ¬(transactions.isEmpty = true) :=
      fun hI => hne (by simpa [List.isEmpty_iff] using hI)
    have h2 : ¬((trendsRecent transactions clk).isEmpty = true) :=
      fun hI => hr (by simpa [List.isEmpty_iff] using hI)
    have h3 : ¬((trendsPrevious transactions clk).isEmpty = true) :=
      fun hI => hp (by simpa [List.isEmpty_iff] using hI)
    simp only [get_spending_trends]
    rw [if_neg h1, if_neg h2, if_neg h3]
  · rw [hkey, lt_div_iff₀ hpos]
    constructor <;> intro h <;> nlinarith
  · rw [hkey, div_lt_iff₀ hpos]
    constructor <;> intro h <;> nlinarith

theorem get_spending_trends_spec_witness :
    trendChange trendTx clk0 =
      (totalRecentExpense trendTx clk0 - sumAmounts (trendsPrevious trendTx clk0)) /
        sumAmounts (trendsPrevious trendTx clk0) * 100 :=
  (get_spending_trends_spec trendTx "$" clk0 (by decide) (by decide) (by decide)
    (by
      have hfp : trendsPrevious trendTx clk0 =
          [⟨2, "expense", "Transport", 40, "2023-12-15", ""⟩] := by decide
      rw [hfp]
      norm_num [sumAmounts])).2.2.1
